import Mathlib

/-!
Verification development for the `pycrumbs` job-record library
(`src/pycrumbs/track.py`).

The embedding follows the source closely:

* Python `str` values are modelled as `List Char` (`PyStr`), so that
  character-level operations (`splitlines`, `endswith`, `Path.stem`) can be
  stated and proved directly.
* `pathlib.Path` is modelled as an absolute-flag plus a list of components
  (`PyPath`).  `Path.resolve` is modelled as prefixing the working directory
  to a relative path; symlink and `..` normalisation are outside the scope of
  every claim considered here.
* `json.dumps` / `repr` of an arbitrary Python object are modelled by a pair
  `PyObj` of the optional encoding result and the debug representation; the
  concrete renderings for ints, strings, `None` and paths mirror CPython's
  output for plain ASCII data.
* The file system is a map from record paths to the JSON documents written
  there, plus the set of directories that contain some other entry (used by
  the `require_empty_directory` check).  Directory creation (`mkdir`) has no
  observable effect on any claim and is not modelled.
* Exceptions are an `Except PyErr` result; the wrapped function is a callee
  returning `Except PyStr PyVal`, whose error payload the wrapper propagates.
-/

set_option maxRecDepth 4096

abbrev PyStr := List Char

/-- Association-list lookup, modelling Python `dict.__getitem__` /
`OrderedDict` access for `bound_args.arguments`. -/
def alGet {κ α : Type} [DecidableEq κ] : List (κ × α) → κ → Option α
  | [], _ => Option.none
  | (k', v) :: rest, k => if k' = k then some v else alGet rest k

/-- Association-list update, modelling Python `dict.__setitem__`:
replace in place when present, append otherwise. -/
def alSet {κ α : Type} [DecidableEq κ] : List (κ × α) → κ → α → List (κ × α)
  | [], k, v => [(k, v)]
  | (k', v') :: rest, k, v =>
    if k' = k then (k', v) :: rest else (k', v') :: alSet rest k v

/-- Model of `pathlib.PurePosixPath`: absolute flag plus components. -/
structure PyPath where
  abs : Bool
  comps : List PyStr
deriving DecidableEq

/-- Model of `Path.name`: the final component, `''` for a path without one. -/
def pname (p : PyPath) : PyStr := p.comps.getLast?.getD []

/-- Split a raw string into path segments at `'/'`, dropping empty segments,
as `pathlib` does when parsing a string. -/
def splitSegAux : PyStr → PyStr → List PyStr
  | [], cur => if cur = [] then [] else [cur.reverse]
  | c :: rest, cur =>
    if c = '/' then
      if cur = [] then splitSegAux rest []
      else cur.reverse :: splitSegAux rest []
    else splitSegAux rest (c :: cur)

def splitSeg (s : PyStr) : List PyStr := splitSegAux s []

/-- Model of `Path(<str>)`. -/
def parsePath (s : PyStr) : PyPath :=
  { abs := decide (s.head? = some '/'), comps := splitSeg s }

/-- Model of `p / q`: an absolute right operand replaces the left one. -/
def pjoin (d : PyPath) (q : PyPath) : PyPath :=
  if q.abs then q else { abs := d.abs, comps := d.comps ++ q.comps }

/-- Model of `Path.resolve()` relative to a working directory (symlink and `..`
normalisation are not relevant to any claim). -/
def presolve (cwd : PyPath) (p : PyPath) : PyPath :=
  if p.abs then p else { abs := true, comps := cwd.comps ++ p.comps }

/-- Model of `str.splitlines` restricted to `'\n'` terminators: every newline closes a
line (possibly empty); a trailing fragment without a newline is kept; the
empty string yields no lines. -/
def splitLinesAux : PyStr → PyStr → List PyStr
  | [], cur => if cur = [] then [] else [cur.reverse]
  | c :: rest, cur =>
    if c = '\n' then cur.reverse :: splitLinesAux rest []
    else splitLinesAux rest (c :: cur)

def splitLines (s : PyStr) : List PyStr := splitLinesAux s []

/-- The serialisation behaviour of an arbitrary Python object: the result of
`json.dumps` when it succeeds (`Option.none` models `TypeError` /
`OverflowError`), and the `repr` string. -/
structure PyObj where
  dumps : Option PyStr
  rep : PyStr
deriving DecidableEq

/-- The Python runtime values the wrapper inspects: ints, `None`, strings,
paths, and opaque objects carrying only their serialisation behaviour. -/
inductive PyVal where
  | vint (n : Int)
  | vnone
  | vstr (s : PyStr)
  | vpath (p : PyPath)
  | vobj (o : PyObj)
deriving DecidableEq

def intStr (n : Int) : PyStr := (toString n).toList

/-- Minimal `json.dumps` string escaping (backslash and double quote; the
claims never depend on escaping of other characters). -/
def jsonEscapeChar (c : Char) : PyStr :=
  if c = '\\' then ['\\', '\\']
  else if c = '"' then ['\\', '"']
  else [c]

def jsonStrDumps (s : PyStr) : PyStr :=
  '"' :: s.flatMap jsonEscapeChar ++ ['"']

def pyReprStr (s : PyStr) : PyStr := '\'' :: s ++ ['\'']

def joinSlash (l : List PyStr) : PyStr := (l.intersperse ['/']).flatten

def pathToStr (p : PyPath) : PyStr :=
  (if p.abs then ['/'] else []) ++ joinSlash p.comps

def pathRepr (p : PyPath) : PyStr :=
  "PosixPath('".toList ++ pathToStr p ++ "')".toList

/-- Model of `json.dumps` / `repr` behaviour of each modelled value. -/
def serial : PyVal → PyObj
  | .vint n => { dumps := some (intStr n), rep := intStr n }
  | .vnone => { dumps := some "null".toList, rep := "None".toList }
  | .vstr s => { dumps := some (jsonStrDumps s), rep := pyReprStr s }
  | .vpath p => { dumps := Option.none, rep := pathRepr p }
  | .vobj o => o

def placeholderStr : PyStr := "<suppressed due to excessive length>".toList

/-- Model of `_format_json` (track.py lines 27-60): try `json.dumps`; on failure fall
back to `repr`; if the textual form exceeds the ceiling return the fixed
placeholder, otherwise return the object unchanged when it was serializable
and the fallback text when it was not. -/
def formatJson (obj : PyVal) (charLimit : Option Nat) : Sum PyVal PyStr :=
  let res : PyStr × Bool :=
    match (serial obj).dumps with
    | some s => (s, true)
    | Option.none => ((serial obj).rep, false)
  match charLimit with
  | some limit =>
    if res.1.length > limit then Sum.inr placeholderStr
    else if res.2 then Sum.inl obj else Sum.inr res.1
  | Option.none => if res.2 then Sum.inl obj else Sum.inr res.1

def jsonExt : PyStr := ".json".toList

/-- Last index of `'.'` in a string (`str.rfind('.')`), `Option.none` when
absent. -/
def lastDotIdx (s : PyStr) : Option Nat :=
  match s.reverse.findIdx? (· = '.') with
  | some j => some (s.length - 1 - j)
  | Option.none => Option.none

/-- Model of `PurePath.stem`: the final component without its last suffix; a suffix
exists only when the last dot is neither the first nor the last character. -/
def pyStem (s : PyStr) : PyStr :=
  match lastDotIdx s with
  | some i => if 0 < i ∧ i < s.length - 1 then s.take i else s
  | Option.none => s

/-- The record-filename fix applied both in `write_record` (lines 317-318)
and in the wrapper (lines 848-851): a name not ending in `.json` is replaced
by `stem + '.json'`. -/
def fixJsonName (s : PyStr) : PyStr :=
  if jsonExt.isSuffixOf s then s else pyStem s ++ jsonExt

/-- The same fix applied to the final component of a path via `with-name`
(the record path always has a final component when this runs). -/
def fixJsonPath (p : PyPath) : PyPath :=
  if jsonExt.isSuffixOf (pname p) then p
  else { abs := p.abs, comps := p.comps.dropLast ++ [pyStem (pname p) ++ jsonExt] }

/-- The exceptions the wrapper can surface, by type (messages are not
modelled): `TypeError`, `ValueError`, `KeyError`, `FileExistsError`,
`IndexError`, and an exception raised by the wrapped function itself
(carrying its payload, which propagates unmodified). -/
inductive PyErr where
  | typeError
  | valueError
  | keyError
  | fileExistsError
  | indexError
  | userError (e : PyStr)
deriving DecidableEq

abbrev Args := List (PyStr × PyVal)

/-- The decoration-time configuration of `tracked` (track.py lines 323-341).
Options that no claim touches (`extra_modules`,
`extra_environment_variables`, `disable_git_tracking`, `allow_dirty_repo`,
`include_package_inventory`) are omitted; `funcName` is the decorated
function's `__name__`. -/
structure Config where
  literal_directory : Option PyPath
  directory_parameter : Option PyStr
  subdirectory_name_parameter : Option PyStr
  directory_injection_parameter : Option PyStr
  include_timestamp : Bool
  include_uuid : Bool
  record_filename : Option PyStr
  seed_parameter : Option PyStr
  create_parents : Bool
  require_empty_directory : Bool
  chain_records : Bool
  funcName : PyStr
deriving DecidableEq

/-- Per-call environment inputs the wrapper consumes: the generated UUID,
`str(start_time)`, `start_time.strftime(fmt)`, the post-call time strings,
the value `random.randint(0, 1000000)` would produce, and the process
working directory used by `Path.resolve`. -/
structure Oracle where
  uuid : PyStr
  startStr : PyStr
  timestampStr : PyStr
  endStr : PyStr
  runStr : PyStr
  genSeed : Int
  cwd : PyPath
deriving DecidableEq

/-- A JSON document on disk: a record object, a JSON array, or any other
document (relevant only to the `isinstance(previous_record, List)` test). -/
inductive JVal (ρ : Type) where
  | recDoc (r : ρ)
  | arr (xs : List (JVal ρ))
  | otherDoc (tag : PyStr)

def isArr {ρ : Type} : JVal ρ → Bool
  | .arr _ => true
  | _ => false

/-- Model of `timing` section of a record: `start_time` from the pre-call write;
`end_time` / `run_time` only added by the post-call write. -/
structure Timing where
  startTime : PyStr
  endTime : Option PyStr
  runTime : Option PyStr
deriving DecidableEq

/-- Model of `called_function` section: `parameters` is recorded when the record is
assembled (before mutation), `altered_parameters` after directory/seed
injection (present in every written record). -/
structure CalledFunction where
  name : PyStr
  parameters : List (PyStr × Sum PyVal PyStr)
  altered_parameters : Option (List (PyStr × Sum PyVal PyStr))
deriving DecidableEq

/-- The job record fields the claims mention (environment, git and package
sections carry no claim-relevant structure and are omitted). -/
structure Record where
  uuid : PyStr
  timing : Timing
  seed : Int
  called_function : CalledFunction
deriving DecidableEq

abbrev Doc := JVal Record

/-- The observable file-system state: the JSON documents stored at record
paths, and the directories holding at least one additional (non-record)
entry, as seen by the `require_empty_directory` check. -/
structure FS where
  files : List (PyPath × Doc)
  nonemptyDirs : List PyPath

def emptyFS : FS := { files := [], nonemptyDirs := [] }

def parentPath (p : PyPath) : PyPath := { abs := p.abs, comps := p.comps.dropLast }

/-- Check whether `next(record_dir.iterdir())` succeeds: the directory holds some entry —
either an extra entry or a previously written record file. -/
def dirNonEmpty (fs : FS) (d : PyPath) : Bool :=
  decide (d ∈ fs.nonemptyDirs) || fs.files.any (fun kv => parentPath kv.1 = d)

/-- Model of `write_record` (track.py lines 302-320): fix the filename extension and
write (or overwrite) the document at that path. -/
def writeRecordFS (fs : FS) (p : PyPath) (doc : Doc) : FS :=
  { fs with files := alSet fs.files (fixJsonPath p) doc }

/-- Map the bound arguments through `_format_json(v, 200)`
(track.py lines 760-763 and 841-844). -/
def normalizeArgs (args : Args) : List (PyStr × Sum PyVal PyStr) :=
  args.map (fun kv => (kv.1, formatJson kv.2 (some 200)))

/-- Model of `Path(value)` for a runtime value: paths and strings succeed, anything
else raises `TypeError`. -/
def asPath : PyVal → Except PyErr PyPath
  | .vpath p => .ok p
  | .vstr s => .ok (parsePath s)
  | _ => .error .typeError

/-- Resolve the base output directory (track.py lines 771-778): the literal
directory, or the value of the configured directory parameter. -/
def baseDir (cfg : Config) (args : Args) : Except PyErr PyPath :=
  match cfg.literal_directory with
  | some p => .ok p
  | Option.none =>
    match cfg.directory_parameter with
    | Option.none => .error .keyError
    | some dp =>
      match alGet args dp with
      | Option.none => .error .keyError
      | some v => asPath v

/-- Append the subdirectory-name parameter's value (track.py lines 780-784;
the `mkdir` of the base directory has no modelled effect). -/
def applySubdir (cfg : Config) (args : Args) (d : PyPath) : Except PyErr PyPath :=
  match cfg.subdirectory_name_parameter with
  | Option.none => .ok d
  | some sp =>
    match alGet args sp with
    | Option.none => .error .keyError
    | some v =>
      match v with
      | .vstr s => .ok (pjoin d (parsePath s))
      | .vpath p => .ok (pjoin d p)
      | _ => .error .typeError

/-- Model of `Path.with_name`: raises `ValueError` on a path without a final
component. -/
def withNameE (p : PyPath) (n : PyStr) : Except PyErr PyPath :=
  match p.comps with
  | [] => .error .valueError
  | _ => .ok { abs := p.abs, comps := p.comps.dropLast ++ [n] }

/-- Append the uniqueness suffix (track.py lines 786-792): the new name is
built from the unresolved path's leaf name, then applied to the resolved
path. -/
def applySuffix (cfg : Config) (orc : Oracle) (d : PyPath) : Except PyErr PyPath :=
  if cfg.include_timestamp then
    withNameE (presolve orc.cwd d) (pname d ++ '_' :: orc.timestampStr)
  else if cfg.include_uuid then
    withNameE (presolve orc.cwd d) (pname d ++ '_' :: orc.uuid)
  else .ok d

/-- Model of `seed_tasks` (track.py lines 171-216): generate a seed when none is
given; the library-seeding side effects are not observable here. -/
def seed_tasks (seed : Option Int) (gen : Int) : Int :=
  match seed with
  | Option.none => gen
  | some n => n

/-- Resolve the seed (track.py lines 794-805): an integer value is used
verbatim, `None` means generate, anything else raises `TypeError`. -/
def resolveSeed (cfg : Config) (args : Args) (gen : Int) : Except PyErr Int :=
  match cfg.seed_parameter with
  | Option.none => .ok (seed_tasks Option.none gen)
  | some sp =>
    match alGet args sp with
    | Option.none => .error .keyError
    | some v =>
      match v with
      | .vint n => .ok (seed_tasks (some n) gen)
      | .vnone => .ok (seed_tasks Option.none gen)
      | _ => .error .typeError

/-- Write the resolved seed back into the seed parameter
(track.py lines 808-810). -/
def injectSeed (cfg : Config) (args : Args) (s : Int) : Args :=
  match cfg.seed_parameter with
  | some sp => alSet args sp (.vint s)
  | Option.none => args

/-- Inject the final output directory (track.py lines 812-825): the
injection parameter receives the full path; otherwise, when a suffix was
requested, the subdirectory parameter receives the leaf name, or failing
that the directory parameter receives the full path. -/
def injectDir (cfg : Config) (args : Args) (d : PyPath) : Args :=
  match cfg.directory_injection_parameter with
  | some ip => alSet args ip (.vpath d)
  | Option.none =>
    if cfg.include_uuid || cfg.include_timestamp then
      match cfg.subdirectory_name_parameter with
      | some sp => alSet args sp (.vstr (pname d))
      | Option.none =>
        match cfg.directory_parameter with
        | some dp => alSet args dp (.vpath d)
        | Option.none => args
    else args

/-- Model of `record_filename or f'{function.__name__}_record'` (track.py
lines 710-712): an empty configured name is falsy and falls back to the
default. -/
def recordFileName (cfg : Config) : PyStr :=
  match cfg.record_filename with
  | some s => if s = [] then cfg.funcName ++ "_record".toList else s
  | Option.none => cfg.funcName ++ "_record".toList

/-- The pre-call chaining decision (track.py lines 853-868), given the
existing document at the record path: returns the `chaining` flag, the
loaded `previous_record`, and the document to write. -/
def chainPre (chain : Bool) (existing : Option Doc) (r : Doc) :
    Bool × Option Doc × Doc :=
  if chain then
    match existing with
    | some prev =>
      match prev with
      | JVal.arr xs => (true, some prev, JVal.arr (xs ++ [r]))
      | _ => (true, some prev, JVal.arr [prev, r])
    | Option.none => (false, Option.none, r)
  else (false, Option.none, r)

/-- The post-call rewrite (track.py lines 880-888) reuses the pre-call
chaining flag and the pre-call loaded document. -/
def chainPost (chaining : Bool) (prev : Option Doc) (r : Doc) : Doc :=
  if chaining then
    match prev with
    | some (JVal.arr xs) => JVal.arr (xs ++ [r])
    | some p => JVal.arr [p, r]
    | Option.none => r
  else r

/-- Everything the wrapper computes before the pre-call write. -/
structure Prep where
  recordDir : PyPath
  fargs : Args
  record : Record
  chaining : Bool
  prev : Option Doc
  outPre : Doc
  path : PyPath

/-- The call-time pipeline up to (and including) assembling the pre-call
document (track.py lines 716-868): normalize the bound arguments, resolve
the output directory, resolve and inject the seed, inject the directory,
perform the `require_empty_directory` check, assemble the record and the
chained pre-call document.  Argument binding itself (lines 744-755) is
`inspect` machinery; `args` is the bound-and-defaulted argument mapping. -/
def prepare (cfg : Config) (orc : Oracle) (fs : FS) (args : Args) :
    Except PyErr Prep :=
  let params := normalizeArgs args
  match baseDir cfg args with
  | .error e => .error e
  | .ok d0 =>
  match applySubdir cfg args d0 with
  | .error e => .error e
  | .ok d1 =>
  match applySuffix cfg orc d1 with
  | .error e => .error e
  | .ok d2 =>
  match resolveSeed cfg args orc.genSeed with
  | .error e => .error e
  | .ok s =>
  let args1 := injectDir cfg (injectSeed cfg args s) d2
  if cfg.require_empty_directory && dirNonEmpty fs d2 then .error .fileExistsError
  else
    let r : Record :=
      { uuid := orc.uuid
        timing := { startTime := orc.startStr, endTime := Option.none,
                    runTime := Option.none }
        seed := s
        called_function :=
          { name := cfg.funcName, parameters := params,
            altered_parameters := some (normalizeArgs args1) } }
    let path := fixJsonPath (pjoin d2 (parsePath (recordFileName cfg)))
    let c := chainPre cfg.chain_records (alGet fs.files path) (JVal.recDoc r)
    .ok { recordDir := d2, fargs := args1, record := r,
          chaining := c.1, prev := c.2.1, outPre := c.2.2, path := path }

/-- Add `end_time` / `run_time` for the post-call write (track.py
lines 876-878). -/
def addTiming (r : Record) (orc : Oracle) : Record :=
  { r with
    timing :=
      { r.timing with
        endTime := some orc.endStr
        runTime := some orc.runStr } }

/-- The result handed back by a successful wrapped call: the callee's return
value, the (possibly mutated) arguments it was invoked with, the final
record, the resolved output directory and the record path. -/
structure RunOut where
  result : PyVal
  fargs : Args
  record : Record
  recordDir : PyPath
  recordPath : PyPath

/-- The full wrapper (track.py lines 716-892): prepare, pre-call write, call
the wrapped function (exceptions propagate with no further write), post-call
write with timing added, return the callee's value. -/
def runTracked (cfg : Config) (orc : Oracle) (fs : FS) (args : Args)
    (callee : Args → Except PyStr PyVal) : FS × Except PyErr RunOut :=
  match prepare cfg orc fs args with
  | .error e => (fs, .error e)
  | .ok p =>
    let fs1 := writeRecordFS fs p.path p.outPre
    match callee p.fargs with
    | .error e => (fs1, .error (.userError e))
    | .ok res =>
      let r2 := addTiming p.record orc
      let out2 := chainPost p.chaining p.prev (JVal.recDoc r2)
      let fs2 := writeRecordFS fs1 p.path out2
      (fs2, .ok { result := res, fargs := p.fargs, record := r2,
                  recordDir := p.recordDir, recordPath := p.path })

/-- The decoration-time configuration validation (track.py lines 613-639):
exactly one of `literal_directory` / `directory_parameter`; the suffix
options are mutually exclusive; a suffix with no directory, subdirectory or
injection parameter is rejected. -/
def trackedValidate (cfg : Config) : Except PyErr Unit :=
  if cfg.literal_directory.isNone == cfg.directory_parameter.isNone then
    .error .typeError
  else if cfg.include_timestamp && cfg.include_uuid then
    .error .valueError
  else if (cfg.include_timestamp || cfg.include_uuid) &&
      cfg.directory_injection_parameter.isNone &&
      cfg.directory_parameter.isNone &&
      cfg.subdirectory_name_parameter.isNone then
    .error .typeError
  else .ok ()

/-- Decoration (`tracked` itself): validation runs before the wrapper is
built, so an invalid configuration fails before any call can happen. -/
def trackedDecorator (cfg : Config) :
    Except PyErr (Oracle → FS → Args → (Args → Except PyStr PyVal) →
      FS × Except PyErr RunOut) :=
  match trackedValidate cfg with
  | .error e => .error e
  | .ok _ => .ok (runTracked cfg)

/-- The fields of `get_environment_info` that claims touch: the optional
build-hash marker content. -/
structure EnvInfo where
  hostname : PyStr
  cwdStr : PyStr
  user : PyStr
  dockerBuildHash : Option PyStr
deriving DecidableEq

/-- Model of `get_environment_info` (track.py lines 63-112), restricted to the
docker-build-hash marker handling (lines 107-110): when the well-known file
exists, `f.read().splitlines()[0]` is stored — an empty file makes the `[0]`
index raise `IndexError`.  `markerContent` is the raw file content when the
marker file exists; `base` gathers the remaining (always-succeeding)
fields. -/
def get_environment_info (markerContent : Option PyStr) (base : EnvInfo) :
    Except PyErr EnvInfo :=
  match markerContent with
  | Option.none => .ok base
  | some content =>
    match splitLines content with
    | [] => .error .indexError
    | l :: _ => .ok { base with dockerBuildHash := some l }

/-- Model of `isinstance(seed_, int) or seed_ is None` (track.py line 797). -/
def isIntLike : PyVal → Bool
  | .vint _ => true
  | .vnone => true
  | _ => false

/-- Shared concrete per-call environment used by witnesses. -/
def orcW : Oracle :=
  { uuid := "u1".toList
    startStr := "2024-01-01 10:00:00".toList
    timestampStr := "2024_01_01_10_00_00".toList
    endStr := "2024-01-01 10:00:05".toList
    runStr := "0:00:05".toList
    genSeed := 7
    cwd := { abs := true, comps := ["cwd".toList] } }

/-- A wrapped function that returns normally. -/
def calleeOk : Args → Except PyStr PyVal := fun _ => Except.ok PyVal.vnone

/-- A wrapped function that raises. -/
def calleeFail : Args → Except PyStr PyVal := fun _ => Except.error "boom".toList

/-- Decoration used by the C1 counterexample: dynamic directory parameter
`out`, UUID suffix, no subdirectory or injection parameter. -/
def cfgC1 : Config :=
  { literal_directory := Option.none
    directory_parameter := some "out".toList
    subdirectory_name_parameter := Option.none
    directory_injection_parameter := Option.none
    include_timestamp := false
    include_uuid := true
    record_filename := Option.none
    seed_parameter := Option.none
    create_parents := false
    require_empty_directory := false
    chain_records := false
    funcName := "f".toList }

def argsC1 : Args :=
  [("out".toList,
    PyVal.vpath { abs := true, comps := ["home".toList, "base".toList] })]

/-- Decoration used by the C1 amended witness: literal base directory,
subdirectory parameter `m`, UUID suffix. -/
def cfgW1 : Config :=
  { cfgC1 with
    literal_directory := some { abs := true, comps := ["base".toList] }
    directory_parameter := Option.none
    subdirectory_name_parameter := some "m".toList }

/-- Decoration used by the C3 counterexample: the seed parameter and the
directory injection parameter are the same function parameter `s`. -/
def cfgC3 : Config :=
  { cfgC1 with
    literal_directory := some { abs := true, comps := ["base".toList] }
    directory_parameter := Option.none
    include_uuid := false
    directory_injection_parameter := some "s".toList
    seed_parameter := some "s".toList }

/-- Minimal valid decoration with a seed parameter, used by witnesses. -/
def cfgW3 : Config :=
  { cfgC3 with
    directory_injection_parameter := Option.none
    seed_parameter := some "seed".toList }

/-- An invalid decoration: neither a literal directory nor a directory
parameter. -/
def cfgBad : Config :=
  { cfgC1 with directory_parameter := Option.none, include_uuid := false }

/-- Decoration with `require_empty_directory` used by the C8 witness. -/
def cfgW8 : Config :=
  { cfgW3 with
    seed_parameter := Option.none
    require_empty_directory := true
    literal_directory := some { abs := true, comps := ["out".toList] } }

/-- A file system whose `/out` directory already holds an entry. -/
def fsW8 : FS :=
  { files := [], nonemptyDirs := [{ abs := true, comps := ["out".toList] }] }

/-- Chain-enabled decoration with a fixed record path, used for the
repeated-call analysis of C2. -/
def cfgChain : Config :=
  { cfgW8 with
    require_empty_directory := false
    chain_records := true
    record_filename := some "run.json".toList }

def chainPath : PyPath :=
  { abs := true, comps := ["out".toList, "run.json".toList] }

/-- The pre-call record `cfgChain` produces from empty bound arguments. -/
def recOf (orc : Oracle) : Record :=
  { uuid := orc.uuid
    timing := { startTime := orc.startStr, endTime := Option.none,
                runTime := Option.none }
    seed := orc.genSeed
    called_function := { name := "f".toList, parameters := [],
                         altered_parameters := some [] } }

/-- Iterated calls: `n` successive calls of the `cfgChain` decoration against the same path,
starting from an empty file system, with per-call environments `orcs`. -/
def iterCalls (orcs : Nat → Oracle) : Nat → FS
  | 0 => emptyFS
  | n + 1 => (runTracked cfgChain (orcs n) (iterCalls orcs n) [] calleeOk).1

/-- Environment snapshot base used by the C10 witness. -/
def baseW : EnvInfo :=
  { hostname := "host".toList
    cwdStr := "/cwd".toList
    user := "user".toList
    dockerBuildHash := Option.none }

theorem alGet_alSet_self {κ α : Type} [DecidableEq κ]
    (l : List (κ × α)) (k : κ) (v : α) : alGet (alSet l k v) k = some v := by
  induction l with
  | nil => simp [alGet, alSet]
  | cons hd tl ih =>
    by_cases h : hd.1 = k
    · simp [alGet, alSet, h]
    · simp [alGet, alSet, h, ih]

theorem alGet_alSet_ne {κ α : Type} [DecidableEq κ]
    (l : List (κ × α)) (k k' : κ) (v : α) (h : k ≠ k') :
    alGet (alSet l k v) k' = alGet l k' := by
  induction l with
  | nil => simp [alGet, alSet, h]
  | cons hd tl ih =>
    by_cases hk : hd.1 = k
    · simp [alGet, alSet, hk, h]
    · simp [alGet, alSet, hk, ih]

theorem fixJsonName_endsWith (s : PyStr) :
    jsonExt.isSuffixOf (fixJsonName s) = true := by
  unfold fixJsonName
  by_cases h : jsonExt.isSuffixOf s
  · simp [h]
  · simp only [h, if_false, Bool.false_eq_true]
    rw [List.isSuffixOf_iff_suffix]
    exact List.suffix_append (pyStem s) jsonExt

theorem fixJsonPath_name_endsWith (p : PyPath) :
    jsonExt.isSuffixOf (pname (fixJsonPath p)) = true := by
  unfold fixJsonPath
  by_cases h : jsonExt.isSuffixOf (pname p)
  · simp [h]
  · simp only [h, if_false, Bool.false_eq_true]
    have hname : pname (PyPath.mk p.abs
        (p.comps.dropLast ++ [pyStem (pname p) ++ jsonExt])) =
        pyStem (pname p) ++ jsonExt := by
      simp [pname]
    rw [hname, List.isSuffixOf_iff_suffix]
    exact List.suffix_append (pyStem (pname p)) jsonExt

example : fixJsonName "record.v2".toList = "record.json".toList := by decide

example : fixJsonName "record".toList = "record.json".toList := by decide

example : fixJsonName "record.json".toList = "record.json".toList := by decide

example : splitLines "a\nb".toList = ["a".toList, "b".toList] := by decide

example : splitLines "".toList = [] := by decide

example : splitLines "\n".toList = ["".toList] := by decide

theorem prepare_ok_fields {cfg : Config} {orc : Oracle} {fs : FS} {args : Args}
    {p : Prep} (h : prepare cfg orc fs args = Except.ok p) :
    resolveSeed cfg args orc.genSeed = Except.ok p.record.seed ∧
    p.fargs = injectDir cfg (injectSeed cfg args p.record.seed) p.recordDir ∧
    p.record.called_function.parameters = normalizeArgs args ∧
    p.record.called_function.altered_parameters = some (normalizeArgs p.fargs) ∧
    p.record.timing.endTime = Option.none ∧
    p.record.timing.runTime = Option.none ∧
    p.path = fixJsonPath (pjoin p.recordDir (parsePath (recordFileName cfg))) ∧
    (p.chaining, p.prev, p.outPre) =
      chainPre cfg.chain_records (alGet fs.files p.path) (JVal.recDoc p.record) := by
  unfold prepare at h
  split at h
  · exact absurd h (by simp)
  split at h
  · exact absurd h (by simp)
  split at h
  · exact absurd h (by simp)
  split at h
  · exact absurd h (by simp)
  split at h
  · exact absurd h (by simp)
  · injection h with h'
    subst h'
    refine ⟨by assumption, rfl, rfl, rfl, rfl, rfl, rfl, rfl⟩

theorem runTracked_ok_inv {cfg : Config} {orc : Oracle} {fs : FS} {args : Args}
    {callee : Args → Except PyStr PyVal} {fs' : FS} {out : RunOut}
    (h : runTracked cfg orc fs args callee = (fs', Except.ok out)) :
    ∃ p res, prepare cfg orc fs args = Except.ok p ∧
      callee p.fargs = Except.ok res ∧
      out = { result := res, fargs := p.fargs, record := addTiming p.record orc,
              recordDir := p.recordDir, recordPath := p.path } ∧
      fs' = writeRecordFS (writeRecordFS fs p.path p.outPre) p.path
              (chainPost p.chaining p.prev (JVal.recDoc (addTiming p.record orc))) := by
  unfold runTracked at h
  split at h
  · simp at h
  case _ p hp =>
    split at h
    · simp at h
    case _ res hres =>
      obtain ⟨h1, h2⟩ := Prod.mk.injEq _ _ _ _ ▸ h
      injection h2 with h2'
      exact ⟨p, res, hp, hres, h2'.symm, h1.symm⟩

/-- C4: for every value passed through `_format_json` with the 200-character
ceiling: a value whose JSON encoding succeeds and fits the ceiling is
returned unchanged; when encoding fails the debug representation is used
instead; and whenever the textual form (encoded or fallback) exceeds the
ceiling the result is the fixed placeholder string, whether or not the value
was serializable. -/
theorem claim_C4 (v : PyVal) :
    (∀ s, (serial v).dumps = some s → s.length ≤ 200 →
      formatJson v (some 200) = Sum.inl v) ∧
    ((serial v).dumps = Option.none → (serial v).rep.length ≤ 200 →
      formatJson v (some 200) = Sum.inr (serial v).rep) ∧
    (∀ s, (serial v).dumps = some s → 200 < s.length →
      formatJson v (some 200) = Sum.inr placeholderStr) ∧
    ((serial v).dumps = Option.none → 200 < (serial v).rep.length →
      formatJson v (some 200) = Sum.inr placeholderStr) := by
  refine ⟨?_, ?_, ?_, ?_⟩
  · intro s hs hle
    simp only [formatJson, hs]
    rw [if_neg (by omega)]
    rfl
  · intro hs hle
    simp only [formatJson, hs]
    rw [if_neg (by omega)]
    rfl
  · intro s hs hgt
    simp only [formatJson, hs]
    rw [if_pos (by omega)]
  · intro hs hgt
    simp only [formatJson, hs]
    rw [if_pos (by omega)]

/-- C4 witness: an int survives unchanged; an unencodable object is recorded
by its repr; over-long texts (encodable or not) become the placeholder. -/
theorem claim_C4_witness :
    formatJson (PyVal.vint 5) (some 200) = Sum.inl (PyVal.vint 5) ∧
    formatJson (PyVal.vobj { dumps := Option.none, rep := "boom".toList })
        (some 200) = Sum.inr "boom".toList ∧
    formatJson (PyVal.vobj { dumps := some (List.replicate 201 'a'), rep := [] })
        (some 200) = Sum.inr placeholderStr ∧
    formatJson (PyVal.vobj { dumps := Option.none, rep := List.replicate 201 'b' })
        (some 200) = Sum.inr placeholderStr :=
  ⟨(claim_C4 (PyVal.vint 5)).1 (intStr 5) rfl (by decide),
   (claim_C4 _).2.1 rfl (by decide),
   (claim_C4 _).2.2.1 (List.replicate 201 'a') rfl (by simp),
   (claim_C4 _).2.2.2 rfl (by simp [serial])⟩

/-- C5 counterexample: the claim says the canonical extension is obtained by
*appending* `.json` when the configured filename lacks it, but on the name
`record.v2` the code replaces the final extension, yielding `record.json`
rather than `record.v2.json`; `write_record` stores the document under the
replaced name. -/
theorem claim_C5_counterexample :
    fixJsonName "record.v2".toList = "record.json".toList ∧
    fixJsonName "record.v2".toList ≠ "record.v2".toList ++ jsonExt ∧
    (writeRecordFS emptyFS
        { abs := true, comps := ["out".toList, "record.v2".toList] }
        (JVal.otherDoc [])).files =
      [({ abs := true, comps := ["out".toList, "record.json".toList] },
        JVal.otherDoc [])] :=
  ⟨by decide, by decide, rfl⟩

/-- C5 (amended): the written record name always ends in the canonical
`.json` extension; a name already ending in `.json` is used unchanged;
otherwise the final extension of the name is *replaced* by `.json` — which
coincides with plain appending exactly when the name has no extension. -/
theorem claim_C5 (s : PyStr) (p : PyPath) :
    jsonExt.isSuffixOf (fixJsonName s) = true ∧
    jsonExt.isSuffixOf (pname (fixJsonPath p)) = true ∧
    (jsonExt.isSuffixOf s = true → fixJsonName s = s) ∧
    (jsonExt.isSuffixOf s = false → fixJsonName s = pyStem s ++ jsonExt) ∧
    (pyStem s = s → jsonExt.isSuffixOf s = false → fixJsonName s = s ++ jsonExt) := by
  refine ⟨fixJsonName_endsWith s, fixJsonPath_name_endsWith p, ?_, ?_, ?_⟩
  · intro h; simp [fixJsonName, h]
  · intro h; simp [fixJsonName, h]
  · intro hstem h; simp [fixJsonName, h, hstem]

/-- C5 witness: a name with no extension gets `.json` appended, a name
already ending in `.json` is unchanged, and every fixed name ends in
`.json`. -/
theorem claim_C5_witness :
    jsonExt.isSuffixOf (fixJsonName "report".toList) = true ∧
    fixJsonName "report.json".toList = "report.json".toList ∧
    fixJsonName "report".toList = "report".toList ++ jsonExt :=
  ⟨(claim_C5 "report".toList { abs := true, comps := [] }).1,
   (claim_C5 "report.json".toList { abs := true, comps := [] }).2.2.1 (by decide),
   (claim_C5 "report".toList { abs := true, comps := [] }).2.2.2.2 (by decide)
     (by decide)⟩

/-- C10: when the well-known build-hash marker file exists but contains no
lines, `get_environment_info` raises `IndexError`; it returns normally —
including the file's first line — exactly when the marker is absent or
non-empty.  The empty content has no lines. -/
theorem claim_C10 (base : EnvInfo) :
    (get_environment_info Option.none base = Except.ok base) ∧
    (splitLines [] = []) ∧
    (∀ c, splitLines c = [] →
      get_environment_info (some c) base = Except.error PyErr.indexError) ∧
    (∀ c l rest, splitLines c = l :: rest →
      get_environment_info (some c) base =
        Except.ok { base with dockerBuildHash := some l }) := by
  refine ⟨rfl, rfl, ?_, ?_⟩
  · intro c hc
    simp [get_environment_info, hc]
  · intro c l rest hc
    simp [get_environment_info, hc]

/-- C10 witness: an existing empty marker file raises `IndexError`; a
two-line marker file stores its first line. -/
theorem claim_C10_witness :
    get_environment_info (some []) baseW = Except.error PyErr.indexError ∧
    get_environment_info (some "abc\ndef".toList) baseW =
      Except.ok { baseW with dockerBuildHash := some "abc".toList } :=
  ⟨(claim_C10 baseW).2.2.1 [] rfl,
   (claim_C10 baseW).2.2.2 "abc\ndef".toList "abc".toList ["def".toList]
     (by decide)⟩

/-- Characterisation of the decoration-time validation result. -/
theorem trackedValidate_ok_iff (cfg : Config) :
    trackedValidate cfg = Except.ok () ↔
      (cfg.literal_directory.isSome ≠ cfg.directory_parameter.isSome ∧
       ¬(cfg.include_timestamp = true ∧ cfg.include_uuid = true) ∧
       ((cfg.include_timestamp = true ∨ cfg.include_uuid = true) →
         cfg.directory_injection_parameter.isSome = true ∨
         cfg.directory_parameter.isSome = true ∨
         cfg.subdirectory_name_parameter.isSome = true)) := by
  obtain ⟨ld, dp, sp, ip, ts, uu, rf, sep, cp, re, cr, fn⟩ := cfg
  cases ld <;> cases dp <;> cases sp <;> cases ip <;> cases ts <;> cases uu <;>
    simp [trackedValidate]

/-- C7: decoration fails before any call exactly when the configuration is
invalid — `trackedDecorator` produces a wrapper iff exactly one of the
literal directory and the directory parameter is given, the timestamp and
UUID suffixes are not both requested, and a requested suffix comes with a
directory, subdirectory or injection parameter; a validation error surfaces
as the decoration result itself, so no wrapper ever exists for an invalid
configuration. -/
theorem claim_C7 (cfg : Config) :
    ((∃ w, trackedDecorator cfg = Except.ok w) ↔
      (cfg.literal_directory.isSome ≠ cfg.directory_parameter.isSome ∧
       ¬(cfg.include_timestamp = true ∧ cfg.include_uuid = true) ∧
       ((cfg.include_timestamp = true ∨ cfg.include_uuid = true) →
         cfg.directory_injection_parameter.isSome = true ∨
         cfg.directory_parameter.isSome = true ∨
         cfg.subdirectory_name_parameter.isSome = true))) ∧
    (∀ e, trackedValidate cfg = Except.error e →
      trackedDecorator cfg = Except.error e) := by
  constructor
  · constructor
    · rintro ⟨w, hw⟩
      unfold trackedDecorator at hw
      split at hw
      · simp at hw
      · rename_i u hu
        cases u
        exact (trackedValidate_ok_iff cfg).mp hu
    · intro hrhs
      refine ⟨runTracked cfg, ?_⟩
      unfold trackedDecorator
      rw [(trackedValidate_ok_iff cfg).mpr hrhs]
  · intro e he
    unfold trackedDecorator
    rw [he]

/-- C7 witness: a configuration with neither directory source yields a
decoration-time type error; a valid configuration yields a wrapper. -/
theorem claim_C7_witness :
    trackedDecorator cfgBad = Except.error PyErr.typeError ∧
    (∃ w, trackedDecorator cfgW3 = Except.ok w) :=
  ⟨(claim_C7 cfgBad).2 PyErr.typeError rfl,
   (claim_C7 cfgW3).1.mpr (by refine ⟨by decide, by decide, by decide⟩)⟩

/-- C6: in every successful tracked call, the record's `parameters` equal
the bound-and-defaulted arguments normalized *before* any directory or seed
injection, while `altered_parameters` equals the normalization of the
argument state the wrapped function was actually invoked with (after those
injections); both fields are present together, and the injections never
change the already-recorded `parameters` field (it depends only on the
original bound arguments). -/
theorem claim_C6 {cfg : Config} {orc : Oracle} {fs : FS} {args : Args}
    {callee : Args → Except PyStr PyVal} {fs' : FS} {out : RunOut}
    (h : runTracked cfg orc fs args callee = (fs', Except.ok out)) :
    out.record.called_function.parameters = normalizeArgs args ∧
    out.record.called_function.altered_parameters =
      some (normalizeArgs out.fargs) := by
  obtain ⟨p, res, hp, hc, hout, hfs⟩ := runTracked_ok_inv h
  obtain ⟨_, _, hparams, halt, _⟩ := prepare_ok_fields hp
  subst hout
  exact ⟨hparams, halt⟩

/-- C6 witness: a call with one argument and a seed injection records the
original argument under `parameters` and the injected state under
`altered_parameters`. -/
theorem claim_C6_witness :
    (addTiming
        { uuid := orcW.uuid
          timing := { startTime := orcW.startStr, endTime := Option.none,
                      runTime := Option.none }
          seed := 7
          called_function :=
            { name := "f".toList
              parameters := normalizeArgs [("seed".toList, PyVal.vnone)]
              altered_parameters :=
                some (normalizeArgs [("seed".toList, PyVal.vint 7)]) } }
        orcW).called_function.parameters =
      normalizeArgs [("seed".toList, PyVal.vnone)] ∧
    (addTiming
        { uuid := orcW.uuid
          timing := { startTime := orcW.startStr, endTime := Option.none,
                      runTime := Option.none }
          seed := 7
          called_function :=
            { name := "f".toList
              parameters := normalizeArgs [("seed".toList, PyVal.vnone)]
              altered_parameters :=
                some (normalizeArgs [("seed".toList, PyVal.vint 7)]) } }
        orcW).called_function.altered_parameters =
      some (normalizeArgs [("seed".toList, PyVal.vint 7)]) :=
  @claim_C6 cfgW3 orcW emptyFS [("seed".toList, PyVal.vnone)] calleeOk _ _ rfl

/-- C8: whenever `require_empty_directory` is set and the resolved output
directory already contains an entry, the call fails with the conflict error
(`FileExistsError`) and the file system is left exactly as it was — no
record file is written or overwritten. -/
theorem claim_C8 (cfg : Config) (orc : Oracle) (fs : FS) (args : Args)
    (callee : Args → Except PyStr PyVal) (d0 d1 d2 : PyPath) (s : Int)
    (hreq : cfg.require_empty_directory = true)
    (h0 : baseDir cfg args = Except.ok d0)
    (h1 : applySubdir cfg args d0 = Except.ok d1)
    (h2 : applySuffix cfg orc d1 = Except.ok d2)
    (hs : resolveSeed cfg args orc.genSeed = Except.ok s)
    (hne : dirNonEmpty fs d2 = true) :
    runTracked cfg orc fs args callee = (fs, Except.error PyErr.fileExistsError) := by
  have hprep : prepare cfg orc fs args = Except.error PyErr.fileExistsError := by
    unfold prepare
    simp only [h0, h1, h2, hs]
    simp [hreq, hne]
  unfold runTracked
  rw [hprep]

/-- C8 witness: with `/out` non-empty and `require_empty_directory` set, the
call fails with the conflict error and writes nothing. -/
theorem claim_C8_witness :
    runTracked cfgW8 orcW fsW8 [] calleeOk =
      (fsW8, Except.error PyErr.fileExistsError) :=
  claim_C8 cfgW8 orcW fsW8 [] calleeOk
    { abs := true, comps := ["out".toList] }
    { abs := true, comps := ["out".toList] }
    { abs := true, comps := ["out".toList] } 7
    rfl rfl rfl rfl rfl (by decide)

/-- C9: once the pre-call record is written, an exception from the wrapped
function propagates to the caller with its payload unmodified and without
any further write — the file system ends exactly at the single pre-call
write, whose record carries no end time and no duration; on normal return
the callee's value is passed through unchanged (with the post-call rewrite
added). -/
theorem claim_C9 {cfg : Config} {orc : Oracle} {fs : FS} {args : Args}
    {callee : Args → Except PyStr PyVal} {p : Prep}
    (h : prepare cfg orc fs args = Except.ok p) :
    (∀ e, callee p.fargs = Except.error e →
      runTracked cfg orc fs args callee =
        (writeRecordFS fs p.path p.outPre,
         Except.error (PyErr.userError e))) ∧
    p.record.timing.endTime = Option.none ∧
    p.record.timing.runTime = Option.none ∧
    (∀ r, callee p.fargs = Except.ok r →
      runTracked cfg orc fs args callee =
        (writeRecordFS (writeRecordFS fs p.path p.outPre) p.path
           (chainPost p.chaining p.prev (JVal.recDoc (addTiming p.record orc))),
         Except.ok { result := r, fargs := p.fargs,
                     record := addTiming p.record orc,
                     recordDir := p.recordDir, recordPath := p.path })) := by
  obtain ⟨_, _, _, _, hend, hrun, _⟩ := prepare_ok_fields h
  refine ⟨?_, hend, hrun, ?_⟩
  · intro e he
    unfold runTracked
    simp only [h, he]
  · intro r hr
    unfold runTracked
    simp only [h, hr]

theorem alGet_injectSeed_self (cfg : Config) (args : Args) (s : Int) (sp : PyStr)
    (hsp : cfg.seed_parameter = some sp) :
    alGet (injectSeed cfg args s) sp = some (PyVal.vint s) := by
  unfold injectSeed
  rw [hsp]
  exact alGet_alSet_self _ _ _

theorem alGet_injectDir_inj (cfg : Config) (args : Args) (d : PyPath) (ip : PyStr)
    (hip : cfg.directory_injection_parameter = some ip) :
    alGet (injectDir cfg args d) ip = some (PyVal.vpath d) := by
  unfold injectDir
  rw [hip]
  exact alGet_alSet_self _ _ _

theorem alGet_injectDir_subdir (cfg : Config) (args : Args) (d : PyPath) (sp : PyStr)
    (hip : cfg.directory_injection_parameter = Option.none)
    (hb : (cfg.include_uuid || cfg.include_timestamp) = true)
    (hsub : cfg.subdirectory_name_parameter = some sp) :
    alGet (injectDir cfg args d) sp = some (PyVal.vstr (pname d)) := by
  unfold injectDir
  rw [hip, hb, hsub]
  exact alGet_alSet_self _ _ _

theorem alGet_injectDir_dirparam (cfg : Config) (args : Args) (d : PyPath) (dp : PyStr)
    (hip : cfg.directory_injection_parameter = Option.none)
    (hb : (cfg.include_uuid || cfg.include_timestamp) = true)
    (hsub : cfg.subdirectory_name_parameter = Option.none)
    (hdp : cfg.directory_parameter = some dp) :
    alGet (injectDir cfg args d) dp = some (PyVal.vpath d) := by
  unfold injectDir
  rw [hip, hb, hsub, hdp]
  exact alGet_alSet_self _ _ _

theorem alGet_injectDir_ne (cfg : Config) (args : Args) (d : PyPath) (k : PyStr)
    (hinj : cfg.directory_injection_parameter ≠ some k)
    (hsuf : (cfg.include_uuid || cfg.include_timestamp) = true →
      cfg.subdirectory_name_parameter ≠ some k ∧ cfg.directory_parameter ≠ some k) :
    alGet (injectDir cfg args d) k = alGet args k := by
  unfold injectDir
  cases hip : cfg.directory_injection_parameter with
  | some ip =>
    exact alGet_alSet_ne _ _ _ _ (fun hE => hinj (hE ▸ hip))
  | none =>
    cases hb : cfg.include_uuid || cfg.include_timestamp with
    | false => rfl
    | true =>
      obtain ⟨h1, h2⟩ := hsuf hb
      cases hsub : cfg.subdirectory_name_parameter with
      | some spn => exact alGet_alSet_ne _ _ _ _ (fun hE => h1 (hE ▸ hsub))
      | none =>
        cases hdp : cfg.directory_parameter with
        | some dpp => exact alGet_alSet_ne _ _ _ _ (fun hE => h2 (hE ▸ hdp))
        | none => rfl

/-- C1 counterexample: with a dynamic directory parameter `out`, a UUID
suffix and no injection parameter, the code writes the *full resolved path*
`/home/base_u1` back into `out` — not the final directory's leaf name
`base_u1` as the claim states. -/
theorem claim_C1_counterexample :
    ((runTracked cfgC1 orcW emptyFS argsC1 calleeOk).2.map
        (fun o => alGet o.fargs "out".toList)) =
      Except.ok (some (PyVal.vpath
        { abs := true, comps := ["home".toList, "base_u1".toList] })) ∧
    PyVal.vpath { abs := true, comps := ["home".toList, "base_u1".toList] } ≠
      PyVal.vstr "base_u1".toList ∧
    PyVal.vpath { abs := true, comps := ["home".toList, "base_u1".toList] } ≠
      PyVal.vpath { abs := false, comps := ["base_u1".toList] } :=
  ⟨rfl, by decide, by decide⟩

/-- C1 (amended): in every successful call where a uniqueness suffix was
applied and no injection parameter is configured, the final directory's leaf
name is written back into the subdirectory-name parameter when one is
configured; otherwise the *full final resolved path* is written into the
base-directory parameter — in both cases the wrapped function observes the
suffixed value.  With an explicit injection parameter, that parameter
receives the final resolved path. -/
theorem claim_C1 {cfg : Config} {orc : Oracle} {fs : FS} {args : Args}
    {callee : Args → Except PyStr PyVal} {fs' : FS} {out : RunOut}
    (h : runTracked cfg orc fs args callee = (fs', Except.ok out)) :
    (∀ ip, cfg.directory_injection_parameter = some ip →
      alGet out.fargs ip = some (PyVal.vpath out.recordDir)) ∧
    (cfg.directory_injection_parameter = Option.none →
      (cfg.include_uuid || cfg.include_timestamp) = true →
      (∀ sp, cfg.subdirectory_name_parameter = some sp →
        alGet out.fargs sp = some (PyVal.vstr (pname out.recordDir))) ∧
      (cfg.subdirectory_name_parameter = Option.none →
        ∀ dp, cfg.directory_parameter = some dp →
          alGet out.fargs dp = some (PyVal.vpath out.recordDir))) := by
  obtain ⟨p, res, hp, hc, hout, hfs⟩ := runTracked_ok_inv h
  obtain ⟨hseed, hfargs, hrest⟩ := prepare_ok_fields hp
  have hfo : out.fargs = p.fargs := by rw [hout]
  have hro : out.recordDir = p.recordDir := by rw [hout]
  constructor
  · intro ip hip
    rw [hfo, hro, hfargs]
    exact alGet_injectDir_inj _ _ _ _ hip
  · intro hip hb
    constructor
    · intro sp hsp
      rw [hfo, hro, hfargs]
      exact alGet_injectDir_subdir _ _ _ _ hip hb hsp
    · intro hsub dp hdp
      rw [hfo, hro, hfargs]
      exact alGet_injectDir_dirparam _ _ _ _ hip hb hsub hdp

/-- C1 witness: literal base `/base`, subdirectory parameter `m`, UUID
suffix — the callee observes the suffixed leaf name `mod_u1` in `m`. -/
theorem claim_C1_witness :
    alGet [("m".toList, PyVal.vstr "mod_u1".toList)] "m".toList =
      some (PyVal.vstr "mod_u1".toList) :=
  ((@claim_C1 cfgW1 orcW emptyFS [("m".toList, PyVal.vstr "mod".toList)]
      calleeOk _ _ rfl).2 rfl rfl).1 "m".toList rfl

/-- C3 counterexample: when the seed parameter is also configured as the
directory injection parameter (a configuration decoration accepts), the
directory injection runs after the seed injection and overwrites it — the
record stores seed `5` but the callee observes the path `/base` in `s`, so
the callee's observed parameter does not equal the recorded seed. -/
theorem claim_C3_counterexample :
    ((runTracked cfgC3 orcW emptyFS [("s".toList, PyVal.vint 5)] calleeOk).2.map
        (fun o => (o.record.seed, alGet o.fargs "s".toList))) =
      Except.ok (5, some (PyVal.vpath { abs := true, comps := ["base".toList] })) ∧
    PyVal.vpath { abs := true, comps := ["base".toList] } ≠ PyVal.vint 5 :=
  ⟨rfl, by decide⟩

/-- C3 (amended): with a configured seed parameter, an integer bound value
is used verbatim, `None` makes the wrapper generate a seed, and any other
value fails with a type error; the resolved seed is recorded in the record,
and — provided the seed parameter is not also the directory injection
parameter, nor (when a uniqueness suffix is applied) the subdirectory-name
or directory parameter — it is written back into the seed parameter, so the
callee's observed parameter equals the recorded seed. -/
theorem claim_C3 (cfg : Config) (args : Args) (gen : Int) (sp : PyStr)
    (hsp : cfg.seed_parameter = some sp) :
    (∀ n, alGet args sp = some (PyVal.vint n) →
      resolveSeed cfg args gen = Except.ok n) ∧
    (alGet args sp = some PyVal.vnone → resolveSeed cfg args gen = Except.ok gen) ∧
    (∀ v, alGet args sp = some v → isIntLike v = false →
      resolveSeed cfg args gen = Except.error PyErr.typeError) ∧
    (∀ (orc : Oracle) (fs : FS) (callee : Args → Except PyStr PyVal)
        (fs' : FS) (out : RunOut),
      runTracked cfg orc fs args callee = (fs', Except.ok out) →
      resolveSeed cfg args orc.genSeed = Except.ok out.record.seed) ∧
    (∀ (orc : Oracle) (fs : FS) (callee : Args → Except PyStr PyVal)
        (fs' : FS) (out : RunOut),
      cfg.directory_injection_parameter ≠ some sp →
      ((cfg.include_uuid || cfg.include_timestamp) = true →
        cfg.subdirectory_name_parameter ≠ some sp ∧
        cfg.directory_parameter ≠ some sp) →
      runTracked cfg orc fs args callee = (fs', Except.ok out) →
      alGet out.fargs sp = some (PyVal.vint out.record.seed)) := by
  refine ⟨?_, ?_, ?_, ?_, ?_⟩
  · intro n hv
    unfold resolveSeed
    simp only [hsp, hv]
    rfl
  · intro hv
    unfold resolveSeed
    simp only [hsp, hv]
    rfl
  · intro v hv hil
    unfold resolveSeed
    simp only [hsp, hv]
    cases v with
    | vint n => simp [isIntLike] at hil
    | vnone => simp [isIntLike] at hil
    | vstr s => rfl
    | vpath p => rfl
    | vobj o => rfl
  · intro orc fs callee fs' out h
    obtain ⟨p, res, hp, hc, hout, hfs⟩ := runTracked_ok_inv h
    obtain ⟨hseed, _⟩ := prepare_ok_fields hp
    have hrec : out.record = addTiming p.record orc := by rw [hout]
    rw [hrec]
    exact hseed
  · intro orc fs callee fs' out hinj hsuf h
    obtain ⟨p, res, hp, hc, hout, hfs⟩ := runTracked_ok_inv h
    obtain ⟨hseed, hfargs, _⟩ := prepare_ok_fields hp
    have hfo : out.fargs = p.fargs := by rw [hout]
    have hrec : out.record = addTiming p.record orc := by rw [hout]
    rw [hfo, hrec, hfargs]
    rw [alGet_injectDir_ne cfg _ _ sp hinj hsuf]
    exact alGet_injectSeed_self cfg args p.record.seed sp hsp

/-- C3 witness: with `seed_parameter = "seed"`, an explicit seed `98` is
used verbatim, an absent (`None`) seed becomes the generated value `7`, a
string seed raises the type error, and in a full call the callee observes
the recorded seed. -/
theorem claim_C3_witness :
    resolveSeed cfgW3 [("seed".toList, PyVal.vint 98)] 7 = Except.ok 98 ∧
    resolveSeed cfgW3 [("seed".toList, PyVal.vnone)] 7 = Except.ok 7 ∧
    resolveSeed cfgW3 [("seed".toList, PyVal.vstr "x".toList)] 7 =
      Except.error PyErr.typeError ∧
    alGet [("seed".toList, PyVal.vint 98)] "seed".toList =
      some (PyVal.vint 98) :=
  ⟨(claim_C3 cfgW3 [("seed".toList, PyVal.vint 98)] 7 "seed".toList rfl).1 98 rfl,
   (claim_C3 cfgW3 [("seed".toList, PyVal.vnone)] 7 "seed".toList rfl).2.1 rfl,
   (claim_C3 cfgW3 [("seed".toList, PyVal.vstr "x".toList)] 7 "seed".toList
      rfl).2.2.1 (PyVal.vstr "x".toList) rfl rfl,
   (claim_C3 cfgW3 [("seed".toList, PyVal.vint 98)] orcW.genSeed "seed".toList
      rfl).2.2.2.2 orcW emptyFS calleeOk _ _ (by decide) (by decide) rfl⟩

/-- C9 witness: a callee that raises leaves exactly the pre-call record on
disk (no end time) and the error payload reaches the caller unmodified. -/
theorem claim_C9_witness :
    runTracked cfgW3 orcW emptyFS [("seed".toList, PyVal.vnone)] calleeFail =
      (writeRecordFS emptyFS
         { abs := true, comps := ["base".toList, "f_record.json".toList] }
         (JVal.recDoc
           { uuid := orcW.uuid
             timing := { startTime := orcW.startStr, endTime := Option.none,
                         runTime := Option.none }
             seed := 7
             called_function :=
               { name := "f".toList
                 parameters := [("seed".toList, Sum.inl PyVal.vnone)]
                 altered_parameters :=
                   some [("seed".toList, Sum.inl (PyVal.vint 7))] } }),
       Except.error (PyErr.userError "boom".toList)) :=
  (@claim_C9 cfgW3 orcW emptyFS [("seed".toList, PyVal.vnone)] calleeFail _
     rfl).1 "boom".toList rfl

theorem runTracked_cfgChain (orc : Oracle) (fs : FS) :
    (runTracked cfgChain orc fs [] calleeOk).1.files =
      alSet
        (alSet fs.files chainPath
          ((chainPre true (alGet fs.files chainPath)
              (JVal.recDoc (recOf orc))).2.2))
        chainPath
        (chainPost
          (chainPre true (alGet fs.files chainPath)
            (JVal.recDoc (recOf orc))).1
          (chainPre true (alGet fs.files chainPath)
            (JVal.recDoc (recOf orc))).2.1
          (JVal.recDoc (addTiming (recOf orc) orc))) := rfl

theorem iterCalls_succ (orcs : Nat → Oracle) (n : Nat) :
    alGet (iterCalls orcs (n + 1)).files chainPath =
      some (chainPost
        (chainPre true (alGet (iterCalls orcs n).files chainPath)
          (JVal.recDoc (recOf (orcs n)))).1
        (chainPre true (alGet (iterCalls orcs n).files chainPath)
          (JVal.recDoc (recOf (orcs n)))).2.1
        (JVal.recDoc (addTiming (recOf (orcs n)) (orcs n)))) := by
  show alGet (runTracked cfgChain (orcs n) (iterCalls orcs n) [] calleeOk).1.files
      chainPath = _
  rw [runTracked_cfgChain]
  exact alGet_alSet_self _ _ _

theorem iterCalls_content (orcs : Nat → Oracle) (n : Nat) :
    (n = 0 → alGet (iterCalls orcs n).files chainPath = Option.none) ∧
    (n = 1 → alGet (iterCalls orcs n).files chainPath =
      some (JVal.recDoc (addTiming (recOf (orcs 0)) (orcs 0)))) ∧
    (2 ≤ n → ∃ xs, alGet (iterCalls orcs n).files chainPath =
      some (JVal.arr xs) ∧ xs.length = n) := by
  induction n with
  | zero => exact ⟨fun _ => rfl, fun hc => absurd hc (by omega), fun hc => absurd hc (by omega)⟩
  | succ n ih =>
    refine ⟨fun hc => absurd hc (by omega), ?_, ?_⟩
    · intro h1
      have hn : n = 0 := by omega
      subst hn
      rw [iterCalls_succ, ih.1 rfl]
      rfl
    · intro h2
      rcases Nat.lt_or_ge n 2 with hlt | hge
      · have hn : n = 1 := by omega
        subst hn
        rw [iterCalls_succ, ih.2.1 rfl]
        exact ⟨[JVal.recDoc (addTiming (recOf (orcs 0)) (orcs 0)),
                JVal.recDoc (addTiming (recOf (orcs 1)) (orcs 1))], rfl, rfl⟩
      · obtain ⟨xs, hxs, hlen⟩ := ih.2.2 hge
        rw [iterCalls_succ, hxs]
        exact ⟨xs ++ [JVal.recDoc (addTiming (recOf (orcs n)) (orcs n))], rfl,
          by simp [hlen]⟩

/-- C2: the pre-call chaining decision writes a single document when the
file is absent, appends to an existing list, and wraps `[existing, new]`
around an existing non-list document; the post-call rewrite reuses exactly
the pre-call decision and loaded document; consequently, iterating a
chain-enabled decoration against the same path leaves a single record after
one call and a list of exactly `n` records after `n ≥ 2` calls. -/
theorem claim_C2 :
    (∀ r : Doc, chainPre true Option.none r = (false, Option.none, r)) ∧
    (∀ (xs : List Doc) (r : Doc), chainPre true (some (JVal.arr xs)) r =
      (true, some (JVal.arr xs), JVal.arr (xs ++ [r]))) ∧
    (∀ (prev r : Doc), isArr prev = false → chainPre true (some prev) r =
      (true, some prev, JVal.arr [prev, r])) ∧
    (∀ (xs : List Doc) (r : Doc),
      chainPost true (some (JVal.arr xs)) r = JVal.arr (xs ++ [r])) ∧
    (∀ (prev r : Doc), isArr prev = false →
      chainPost true (some prev) r = JVal.arr [prev, r]) ∧
    (∀ (prev : Option Doc) (r : Doc), chainPost false prev r = r) ∧
    (∀ orcs : Nat → Oracle,
      alGet (iterCalls orcs 1).files chainPath =
        some (JVal.recDoc (addTiming (recOf (orcs 0)) (orcs 0)))) ∧
    (∀ (orcs : Nat → Oracle) (n : Nat), 2 ≤ n →
      ∃ xs, alGet (iterCalls orcs n).files chainPath =
        some (JVal.arr xs) ∧ xs.length = n) := by
  refine ⟨fun r => rfl, fun xs r => rfl, ?_, fun xs r => rfl, ?_, fun prev r => rfl,
    fun orcs => (iterCalls_content orcs 1).2.1 rfl,
    fun orcs n hn => (iterCalls_content orcs n).2.2 hn⟩
  · intro prev r hprev
    cases prev with
    | recDoc rr => rfl
    | arr xs => simp [isArr] at hprev
    | otherDoc t => rfl
  · intro prev r hprev
    cases prev with
    | recDoc rr => rfl
    | arr xs => simp [isArr] at hprev
    | otherDoc t => rfl

/-- C2 witness: wrapping a non-list document produces the two-element pair,
and two (resp. three) successive chained calls leave a two- (resp. three-)
element list on disk. -/
theorem claim_C2_witness :
    chainPre true (some (JVal.recDoc (recOf orcW))) (JVal.otherDoc []) =
      (true, some (JVal.recDoc (recOf orcW)),
       JVal.arr [JVal.recDoc (recOf orcW), JVal.otherDoc []]) ∧
    (∃ xs, alGet (iterCalls (fun _ => orcW) 2).files chainPath =
      some (JVal.arr xs) ∧ xs.length = 2) ∧
    (∃ xs, alGet (iterCalls (fun _ => orcW) 3).files chainPath =
      some (JVal.arr xs) ∧ xs.length = 3) :=
  ⟨claim_C2.2.2.1 (JVal.recDoc (recOf orcW)) (JVal.otherDoc []) rfl,
   claim_C2.2.2.2.2.2.2.2 (fun _ => orcW) 2 (by omega),
   claim_C2.2.2.2.2.2.2.2 (fun _ => orcW) 3 (by omega)⟩
